import Mathlib

/-!
Shallow embedding of the `basicStats` univariate data-profiling engine
(`basicStats/basics.py`): column-type recognition predicates, the
missing-value detector, descriptive statistics, and the `raw_data` facade.

Conventions of the embedding:
* a cell value is a `Value` (pandas cell: NaN/None, numpy integer, float,
  bool, or string);
* Python functions that can raise return `Option`/`Except`; printing a
  diagnostic and returning `None` is modelled as a `none`/`.ok none` result,
  while a raised exception is `none` (for plain helpers) or `.error` (for
  facade methods, so that the diagnostic path and the exception path stay
  distinguishable);
* machine floats are modelled by `PyFloat` (an exact rational or NaN);
* the trusted numeric primitives (`np.unique`, `statistics.mean`,
  `scipy.stats.trim_mean`, `min`, `max`, string formatting) are modelled by
  their documented algorithms; the opaque statistical primitives
  (`skew`, `skewtest`, `kurtosis`, `kurtosistest`) are parameters of the
  reports that use them, since no claim depends on their numeric output.
-/

namespace BasicStats

/-- A single cell of a pandas column: the NaN/null sentinel, a numpy integer
scalar, a float (Python float or `np.float64`), a bool, or a string. -/
inductive Value where
  | null
  | intV (n : ℤ)
  | floatV (q : ℚ)
  | boolV (b : Bool)
  | strV (s : String)
deriving DecidableEq

/-- `np.isnan` on a cell: true exactly for the NaN/null sentinel. -/
def Value.isNull : Value → Bool
  | .null => true
  | _ => false

/-- `isinstance(v, np.integer)`: numpy integer scalars only (Python bools and
floats are not `np.integer`). -/
def is_np_integer : Value → Bool
  | .intV _ => true
  | _ => false

/-- `isinstance(v, np.float)`: `np.float` is the builtin `float`, so this holds
for any float value. -/
def is_np_float : Value → Bool
  | .floatV _ => true
  | _ => false

/-- `isinstance(v, np.str)`: `np.str` is the builtin `str`. -/
def is_np_str : Value → Bool
  | .strV _ => true
  | _ => false

/-- `get_unique_values(column) = np.unique(column[~np.isnan(column)])`:
the distinct non-null values of a column.  (`np.unique` additionally sorts
its output; nothing below depends on the order of the distinct values, only
on which values occur, so we keep `dedup` order.) -/
def get_unique_values (column : List Value) : List Value :=
  (column.filter fun v => !v.isNull).dedup

/-- `unique_values_count(column)`: number of non-null unique values. -/
def unique_values_count (column : List Value) : ℕ :=
  (get_unique_values column).length

/-- `binary_column_recognition(column)`: exactly two unique values. -/
def binary_column_recognition (column : List Value) : Bool :=
  decide (unique_values_count column = 2)

/-- `categorical_column_recognition(column)`.  The source computes
`condition1 = 2 < u <= 30` and then, on its own line and hence
unconditionally, `condition2 = isinstance(get_unique_values(column)[0],
(np.str, np.integer))`; the `[0]` raises `IndexError` when there is no
unique value, which we model as `none`. -/
def categorical_column_recognition (column : List Value) : Option Bool :=
  let condition1 := decide (2 < unique_values_count column) &&
    decide (unique_values_count column ≤ 30)
  match (get_unique_values column).head? with
  | none => none
  | some first => some (condition1 && (is_np_str first || is_np_integer first))

/-- `continuous_variable_recognition(column)`: the source rebinds `column` to
its unique values, takes `first_value = column[0]` (raising `IndexError`,
modelled `none`, when there is none), and returns
`unique_values_count(column) > 2 and isinstance(first_value, (np.integer,
np.float))` where `column` is now the unique-value array. -/
def continuous_variable_recognition (column0 : List Value) : Option Bool :=
  let column := get_unique_values column0
  match column.head? with
  | none => none
  | some first_value =>
      some (decide (2 < unique_values_count column) &&
        (is_np_integer first_value || is_np_float first_value))

/-- A single apostrophe character, for building the `"''"` marker string. -/
def squote : String := (Char.ofNat 39).toString

/-- `common_missing_value_format`: the canonical missing-value markers
`[np.nan, " ", two double quotes, two single quotes, "()", "[]",
empty braces, "?", "*", "."]`. -/
def common_missing_value_format : List Value :=
  [Value.null, Value.strV " ", Value.strV "\"\"", Value.strV (squote ++ squote),
   Value.strV "()", Value.strV "[]", Value.strV "\x7b\x7d", Value.strV "?",
   Value.strV "*", Value.strV "."]

/-- `column_with_missing_value(column)`: the source loops over the column but
both branches of the loop body `return`, so the answer is decided by the
first value alone; on an empty column the loop body never runs and the
function falls through to an implicit `None` (modelled `none`). -/
def column_with_missing_value (column : List Value) : Option Bool :=
  match column with
  | [] => none
  | value :: _ =>
      if value ∈ common_missing_value_format then some true else some false

/-! ### Floats and the numeric primitives used by the descriptive statistics -/

/-- A Python/numpy float: NaN or an exact rational. -/
inductive PyFloat where
  | nan
  | num (q : ℚ)
deriving DecidableEq

/-- Whether a float is NaN. -/
def PyFloat.isNan : PyFloat → Bool
  | .nan => true
  | _ => false

/-- The rational carried by a float (0 for NaN; only used under a no-NaN
guard). -/
def PyFloat.toQ : PyFloat → ℚ
  | .nan => 0
  | .num q => q

/-- The ordering used by `np.partition`/`np.sort`: numbers by value, NaN
sorted after every number. -/
def pfLe : PyFloat → PyFloat → Bool
  | _, .nan => true
  | .nan, .num _ => false
  | .num x, .num y => decide (x ≤ y)

/-- Insert into a sorted list (helper for `np_sort`). -/
def np_insert (x : PyFloat) : List PyFloat → List PyFloat
  | [] => [x]
  | y :: ys => if pfLe x y then x :: y :: ys else y :: np_insert x ys

/-- Sorting a float array as `np.partition`/`np.sort` orders it (NaN last).
`scipy.stats.trim_mean` only reads a contiguous slice of the partitioned
array, which equals the same slice of the fully sorted array. -/
def np_sort : List PyFloat → List PyFloat
  | [] => []
  | x :: xs => np_insert x (np_sort xs)

/-- Python `int(...)` applied to a rational: truncation toward zero. -/
def pyInt (q : ℚ) : ℤ :=
  if 0 ≤ q then q.floor else -(-q).floor

/-- `np.mean`: NaN on an empty array, NaN if any entry is NaN, otherwise the
exact arithmetic mean. -/
def np_mean (a : List PyFloat) : PyFloat :=
  if a.isEmpty then .nan
  else if a.any PyFloat.isNan then .nan
  else .num ((a.map PyFloat.toQ).sum / (a.length : ℚ))

/-- `statistics.mean`: raises `StatisticsError` on empty data (modelled
`none`), propagates NaN, otherwise the exact arithmetic mean. -/
def statistics_mean (data : List PyFloat) : Option PyFloat :=
  if data.isEmpty then none
  else if data.any PyFloat.isNan then some .nan
  else some (.num ((data.map PyFloat.toQ).sum / (data.length : ℚ)))

/-- `get_mean(column) = mean(column)` (the `statistics` library mean). -/
def get_mean (column : List PyFloat) : Option PyFloat :=
  statistics_mean column

/-- `scipy.stats.trim_mean(a, proportiontocut)`: NaN on empty input;
`lowercut = int(proportiontocut * nobs)`, `uppercut = nobs - lowercut`;
raises `ValueError` (modelled `none`) when `lowercut > uppercut`; otherwise
the mean of the slice `[lowercut:uppercut]` of the partitioned array. -/
def scipy_trim_mean (a : List PyFloat) (proportiontocut : ℚ) : Option PyFloat :=
  if a.isEmpty then some .nan
  else
    let nobs : ℤ := a.length
    let lowercut := pyInt (proportiontocut * (nobs : ℚ))
    let uppercut := nobs - lowercut
    if uppercut < lowercut then none
    else some (np_mean (((np_sort a).drop lowercut.toNat).take
      (uppercut - lowercut).toNat))

/-- `get_X_perc_trimmed_mean(column, trimmed_ratio) =
trim_mean(column, trimmed_ratio)`. -/
def get_X_perc_trimmed_mean (column : List PyFloat) (trimmed_ratio : ℚ) :
    Option PyFloat :=
  scipy_trim_mean column trimmed_ratio

/-- Python `a < b` on floats: any comparison with NaN is false. -/
def pyLt : PyFloat → PyFloat → Bool
  | .num x, .num y => decide (x < y)
  | _, _ => false

/-- `get_min(column) = min(column)`: Python `min` keeps the running best and
replaces it when a later value compares strictly below it; raises
`ValueError` on an empty column (modelled `none`). -/
def get_min (column : List PyFloat) : Option PyFloat :=
  match column with
  | [] => none
  | x :: xs => some (xs.foldl (fun best v => if pyLt v best then v else best) x)

/-- `get_max(column) = max(column)`, symmetric to `get_min`. -/
def get_max (column : List PyFloat) : Option PyFloat :=
  match column with
  | [] => none
  | x :: xs => some (xs.foldl (fun best v => if pyLt best v then v else best) x)

/-- `q * 100` rounded to the nearest integer with ties to even — the
rounding Python float formatting performs for two decimal places — computed
on the numerator and denominator: with `m = 100 * q.num`, `d = q.den`, the
floor is `f = m.fdiv d` and the remainder `r = m - f * d` satisfies
`0 ≤ r < d`, so the fractional part `r / d` compares with one half as
`2 * r` compares with `d`. -/
def roundHundredthsHalfEven (q : ℚ) : ℤ :=
  let m := 100 * q.num
  let d : ℤ := (q.den : ℤ)
  let f := m.fdiv d
  let r := m - f * d
  if 2 * r < d then f
  else if d < 2 * r then f + 1
  else if f % 2 = 0 then f else f + 1

/-- Two-digit zero-padding for the fractional part. -/
def padTwo (n : ℕ) : String :=
  if n < 10 then "0" ++ toString n else toString n

/-- Python `format(x, .2f)`: the number rounded to two decimal places with
exactly two digits after the point (`nan` formats as the string `nan`; the
sign is taken from the numerator, `q < 0 ↔ q.num < 0`). -/
def formatFixed2 : PyFloat → String
  | .nan => "nan"
  | .num q =>
      let n := roundHundredthsHalfEven q
      let sign := if q.num < 0 then "-" else ""
      sign ++ toString (n.natAbs / 100) ++ "." ++ padTwo (n.natAbs % 100)

/-- `get_range(column)`: the formatted string built from `get_min` and
`get_max` (the format call is only reached when both exist). -/
def get_range (column : List PyFloat) : Option String :=
  match get_min column, get_max column with
  | some mn, some mx =>
      some ("(" ++ formatFixed2 mn ++ " ~ " ++ formatFixed2 mx ++ ")")
  | _, _ => none

/-! ### The `raw_data` facade over a pandas DataFrame -/

/-- The pandas dtype of a column: integer, float, `object` (strings), or
boolean. -/
inductive Dtype where
  | int
  | float
  | object
  | bool
deriving DecidableEq

/-- `select_dtypes(exclude=[object, bool])` keeps a column with this dtype. -/
def numeric_dtype : Dtype → Bool
  | .object => false
  | .bool => false
  | _ => true

/-- A named DataFrame column with its declared dtype and cell values. -/
structure Column where
  name : String
  dtype : Dtype
  values : List Value
deriving DecidableEq

/-- A DataFrame: the `raw_table` wrapped by the `raw_data` class. -/
structure Dataset where
  columns : List Column
deriving DecidableEq

/-- `shape[0]`: the number of rows (length of the first column; 0 for a
column-free frame). -/
def row_number (d : Dataset) : ℕ :=
  match d.columns with
  | [] => 0
  | c :: _ => c.values.length

/-- A cell value is admissible for a dtype: integer columns hold numpy
integers, float columns hold floats or NaN, object columns hold strings or
NaN, boolean columns hold bools. -/
def dtype_ok : Dtype → Value → Bool
  | .int, .intV _ => true
  | .float, .floatV _ => true
  | .float, .null => true
  | .object, .strV _ => true
  | .object, .null => true
  | .bool, .boolV _ => true
  | _, _ => false

/-- Well-formed DataFrame: column names are unique and every cell value
matches its column's declared dtype (the §3 data-model invariant). -/
def WF (d : Dataset) : Prop :=
  (d.columns.map Column.name).Nodup ∧
    ∀ c ∈ d.columns, ∀ v ∈ c.values, dtype_ok c.dtype v = true

instance (d : Dataset) : Decidable (WF d) := by
  unfold WF; infer_instance

/-- `get_columns()`: the column names, or a printed diagnostic and `None`
(modelled `none`) when there are none. -/
def get_columns (d : Dataset) : Option (List String) :=
  let names := d.columns.map Column.name
  if 0 < names.length then some names else none

/-- `get_binary_column_list()`: names of columns satisfying
`binary_column_recognition`, or a diagnostic and `None` when there are
none. -/
def get_binary_column_list (d : Dataset) : Option (List String) :=
  let binary_columns :=
    (d.columns.filter fun c => binary_column_recognition c.values).map Column.name
  if 0 < binary_columns.length then some binary_columns else none

/-- `get_non_binary_column_list()`: the comprehension
`[x for x in self.get_columns() if x not in self.get_binary_column_list()]`.
Iterating over `get_columns()`, or testing membership in
`get_binary_column_list()`, raises `TypeError` when the called method
returned `None`; the membership test is only reached when the iterated list
is non-empty. -/
def get_non_binary_column_list (d : Dataset) :
    Except String (Option (List String)) :=
  match get_columns d with
  | none => .error "TypeError: NoneType is not iterable"
  | some cols =>
      if cols.isEmpty then .ok none
      else
        match get_binary_column_list d with
        | none => .error "TypeError: argument of type NoneType is not iterable"
        | some bl =>
            let non_binary_columns := cols.filter fun x => decide (x ∉ bl)
            if 0 < non_binary_columns.length then .ok (some non_binary_columns)
            else .ok none

/-- The names of the columns recognised as continuous. -/
def numeric_column_names (d : Dataset) : List String :=
  (d.columns.filter fun c =>
    decide (continuous_variable_recognition c.values = some true)).map Column.name

/-- `get_numeric_column_list()`: applies `continuous_variable_recognition`
to every column; the `IndexError` of any column aborts the whole `apply`
(modelled `.error`); otherwise the names of the columns recognised as
continuous, with a diagnostic-and-`None` when there are none. -/
def get_numeric_column_list (d : Dataset) :
    Except String (Option (List String)) :=
  if d.columns.all fun c => (continuous_variable_recognition c.values).isSome then
    if 0 < (numeric_column_names d).length then .ok (some (numeric_column_names d))
    else .ok none
  else .error "IndexError: index 0 is out of bounds"

/-- Converting a cell to the float that `statistics.mean` sees: NaN for a
null, the numeric value for numbers and bools, a `TypeError` (modelled
`none`) for strings. -/
def Value.toPyFloat? : Value → Option PyFloat
  | .null => some .nan
  | .intV n => some (.num (n : ℚ))
  | .floatV q => some (.num q)
  | .boolV b => some (.num (if b then 1 else 0))
  | .strV _ => none

/-- The average of two floats (NaN-propagating), used by the even-length
median. -/
def pf_half_sum : PyFloat → PyFloat → PyFloat
  | .num x, .num y => .num ((x + y) / 2)
  | _, _ => .nan

/-- `statistics.median`: raises `StatisticsError` on empty data (modelled
`none`); otherwise sorts and takes the middle element for odd length, the
average of the two middle elements for even length. -/
def statistics_median (data : List PyFloat) : Option PyFloat :=
  if data.isEmpty then none
  else if data.length % 2 = 1 then
    some ((np_sort data).getD (data.length / 2) PyFloat.nan)
  else
    some (pf_half_sum ((np_sort data).getD (data.length / 2 - 1) PyFloat.nan)
      ((np_sort data).getD (data.length / 2) PyFloat.nan))

/-- `get_median(column) = median(column)`. -/
def get_median_stat (column : List PyFloat) : Option PyFloat :=
  statistics_median column

/-- `scipy.stats.mode`: the most frequent value together with its count,
ties broken toward the lowest value (the fold starts from the sorted values
and only replaces the running best on a strictly larger count); absent on an
empty array. -/
def scipy_mode (data : List PyFloat) : Option (PyFloat × ℕ) :=
  match np_sort data with
  | [] => none
  | x :: xs =>
      some ((x :: xs).foldl
        (fun best v => if best.2 < data.count v then (v, data.count v) else best)
        (x, data.count x))

/-- The per-Series lift of a numeric primitive: pandas hands the statistic a
Series whose cells convert to floats (a string cell raises, modelled by the
`none` of `Value.toPyFloat?`). -/
def series_stat {α : Type} (stat : List PyFloat → Option α)
    (values : List Value) : Option α :=
  (values.mapM Value.toPyFloat?).bind stat

/-- `get_mean` applied to one pandas Series: convert the cells to floats and
take `statistics.mean`; `none` models the raised error (empty data or
non-numeric cells). -/
def series_mean (values : List Value) : Option PyFloat :=
  series_stat statistics_mean values

/-- `get_X_perc_trimmed_mean(-, trimmed_ratio)` applied to one Series. -/
def series_trim_mean (trimmed_ratio : ℚ) (values : List Value) :
    Option PyFloat :=
  series_stat (fun fs => scipy_trim_mean fs trimmed_ratio) values

/-- `get_median` applied to one Series. -/
def series_median (values : List Value) : Option PyFloat :=
  series_stat get_median_stat values

/-- `get_mode` applied to one Series. -/
def series_mode (values : List Value) : Option (PyFloat × ℕ) :=
  series_stat scipy_mode values

/-- `get_min` applied to one Series. -/
def series_min (values : List Value) : Option PyFloat :=
  series_stat get_min values

/-- `get_max` applied to one Series. -/
def series_max (values : List Value) : Option PyFloat :=
  series_stat get_max values

/-- `get_range` applied to one Series. -/
def series_range (values : List Value) : Option String :=
  series_stat get_range values

/-- The names of the columns kept by `select_dtypes(exclude=[object, bool])`:
the dtype-numeric columns every descriptive-stat accessor operates on. -/
def numeric_dtype_names (d : Dataset) : List String :=
  (d.columns.filter fun c => numeric_dtype c.dtype).map Column.name

/-- The shared skeleton of every descriptive-stat accessor of `raw_data`:
`self.raw_data.select_dtypes(exclude=[object, bool]).apply(f, axis=0)` — an
exception in any column aborts the whole `apply` (modelled `.error err`) —
followed by `if len(result) > 0: return result else: print(diagnostic)`
(modelled `.ok none`). -/
def apply_to_numeric_dtype {α : Type} (f : List Value → Option α)
    (err : String) (d : Dataset) :
    Except String (Option (List (String × α))) :=
  match (d.columns.filter fun c => numeric_dtype c.dtype).mapM
      (fun c => (f c.values).map fun m => (c.name, m)) with
  | none => .error err
  | some tbl => if 0 < tbl.length then .ok (some tbl) else .ok none

/-- `get_mean_traditional()`: restrict with
`select_dtypes(exclude=[object, bool])`, apply `get_mean` column-wise, and
return the resulting table or a diagnostic-and-`None` when it is empty. -/
def get_mean_traditional (d : Dataset) :
    Except String (Option (List (String × PyFloat))) :=
  apply_to_numeric_dtype series_mean "StatisticsError" d

/-- `get_mean_trimmed(r)` (default `r = 0.05`): the same skeleton around
`get_X_perc_trimmed_mean(-, r)`. -/
def get_mean_trimmed (d : Dataset) (trimmed_ratio : ℚ) :
    Except String (Option (List (String × PyFloat))) :=
  apply_to_numeric_dtype (series_trim_mean trimmed_ratio) "ValueError" d

/-- `raw_data.get_median()`: the same skeleton around `get_median`. -/
def get_median (d : Dataset) :
    Except String (Option (List (String × PyFloat))) :=
  apply_to_numeric_dtype series_median "StatisticsError" d

/-- `raw_data.get_mode()`: the same skeleton around `get_mode` (each cell of
the table holds scipy's mode result: the modal value and its count). -/
def get_mode (d : Dataset) :
    Except String (Option (List (String × (PyFloat × ℕ)))) :=
  apply_to_numeric_dtype series_mode "TypeError" d

/-- `get_minimums()`: the same skeleton around `get_min`. -/
def get_minimums (d : Dataset) :
    Except String (Option (List (String × PyFloat))) :=
  apply_to_numeric_dtype series_min "ValueError" d

/-- `get_maximums()`: the same skeleton around `get_max`. -/
def get_maximums (d : Dataset) :
    Except String (Option (List (String × PyFloat))) :=
  apply_to_numeric_dtype series_max "ValueError" d

/-- `raw_data.get_range()`: the same skeleton around the module-level
`get_range`, producing the formatted range string per column. -/
def get_range_table (d : Dataset) :
    Except String (Option (List (String × String))) :=
  apply_to_numeric_dtype series_range "ValueError" d

/-- The significance flag `p_value < sig_level`; a NaN p-value compares
false. -/
def pvalue_significant (p : PyFloat) (sig_level : ℚ) : Bool :=
  match p with
  | .nan => false
  | .num q => decide (q < sig_level)

/-- One row of the kurtosis or skewness report: the statistic value, the
test p-value, and `is_statistically_significant = p_value < sig_level`
(labelled `excess_kurtosis_values`/`weight_of_tail_p_values` in the kurtosis
report and `skewness_values`/`skewness_p_values` in the skewness report). -/
structure ShapeTestRow where
  stat_value : PyFloat
  p_value : PyFloat
  is_statistically_significant : Bool
deriving DecidableEq

/-- The per-column content of a kurtosis/skewness report: the three
`apply` passes of the source compute the statistic, the test p-value, and
the significance flag for the same column, concatenated row-wise; the
statistic and p-value primitives are trusted scipy collaborators passed as
parameters, and are total, so this never fails. -/
def shape_report_row (stat ptest : List Value → PyFloat) (sig_level : ℚ)
    (values : List Value) : Option ShapeTestRow :=
  some ⟨stat values, ptest values, pvalue_significant (ptest values) sig_level⟩

/-- `get_kurtosis_report(sig_level)`: the same skeleton computing the
kurtosis value, the kurtosis-test p-value, and its significance flag per
dtype-numeric column. -/
def get_kurtosis_report (kurt kurtp : List Value → PyFloat) (sig_level : ℚ)
    (d : Dataset) : Except String (Option (List (String × ShapeTestRow))) :=
  apply_to_numeric_dtype (shape_report_row kurt kurtp sig_level) "ValueError" d

/-- `get_skewness_report(sig_level)`: the same skeleton computing the
skewness value, the skew-test p-value, and its significance flag per
dtype-numeric column. -/
def get_skewness_report (skew skewp : List Value → PyFloat) (sig_level : ℚ)
    (d : Dataset) : Except String (Option (List (String × ShapeTestRow))) :=
  apply_to_numeric_dtype (shape_report_row skew skewp sig_level) "ValueError" d

/-- `DEFAULT_SIG_LEVEL = 0.05`. -/
def DEFAULT_SIG_LEVEL : ℚ := 1/20

/-- One row of the normality report, with the explicit column labels
`skewness_values`, `skew_is_significant`, `excess_kurtosis`,
`tail_weight_is_significant`. -/
structure NormalityRow where
  skewness_values : PyFloat
  skew_is_significant : Bool
  excess_kurtosis : PyFloat
  tail_weight_is_significant : Bool
deriving DecidableEq

/-- The rows assembled by `get_normality_report` once the continuous column
names are known: select those columns, restrict with
`select_dtypes(exclude=[object, bool])`, and compute the four labelled
statistic fields for each remaining column. -/
def normality_report_rows (skew skewp kurt kurtp : List Value → PyFloat)
    (sig_level : ℚ) (d : Dataset) (only_continuous_variables : List String) :
    List (String × NormalityRow) :=
  ((d.columns.filter fun c => decide (c.name ∈ only_continuous_variables)).filter
      fun c => numeric_dtype c.dtype).map fun c =>
    (c.name,
     NormalityRow.mk (skew c.values)
       (pvalue_significant (skewp c.values) sig_level)
       (kurt c.values)
       (pvalue_significant (kurtp c.values) sig_level))

/-- `get_normality_report(sig_level)`: takes
`only_continuous_variables = self.get_numeric_column_list()` (whose raised
`IndexError` propagates, and whose diagnostic `None` makes the subsequent
`self.raw_data[None]` raise, modelled `.error`); selects those columns,
restricts with `select_dtypes(exclude=[object, bool])`, applies the four
statistic columns (skewness, skew-test significance, kurtosis, kurtosis-test
significance), and returns the assembled table, or a diagnostic-and-`None`
when it is empty.  The scipy primitives `skew`, `skewtest p-value`,
`kurtosis`, `kurtosistest p-value` are parameters `skew`, `skewp`, `kurt`,
`kurtp`: they are trusted external collaborators and the claims below do not
depend on their numeric output. -/
def get_normality_report (skew skewp kurt kurtp : List Value → PyFloat)
    (sig_level : ℚ) (d : Dataset) :
    Except String (Option (List (String × NormalityRow))) :=
  match get_numeric_column_list d with
  | .error e => .error e
  | .ok none => .error "KeyError: None"
  | .ok (some only_continuous_variables) =>
      if 0 < (normality_report_rows skew skewp kurt kurtp sig_level d
          only_continuous_variables).length then
        .ok (some (normality_report_rows skew skewp kurt kurtp sig_level d
          only_continuous_variables))
      else .ok none

/-- Row `i` of the DataFrame (pandas guarantees in-range access inside
`sample`, so the default is never read on the guarded path). -/
def nth_row (d : Dataset) (i : ℕ) : List Value :=
  d.columns.map fun c => c.values.getD i Value.null

/-- `DataFrame.sample(n)`: a uniformly random sample of `n` rows without
replacement, keeping their original index labels.  The random draw is the
parameter `choice`; pandas guarantees it is a duplicate-free in-range index
list of length `n` and raises `ValueError` when `n` exceeds the population
(an invalid oracle is mapped to the same error). -/
def pandas_sample (d : Dataset) (n : ℕ) (choice : List ℕ) :
    Except String (List (ℕ × List Value)) :=
  if n ≤ row_number d ∧ choice.length = n ∧ choice.Nodup ∧
      ∀ i ∈ choice, i < row_number d then
    .ok (choice.map fun i => (i, nth_row d i))
  else .error "ValueError"

/-- `sample_n_rows(n)`: prints a diagnostic and returns `None` (modelled
`.ok none`) when `n < 1`, otherwise `self.raw_data.sample(round(n))`
(`round` is the identity on the integer arguments considered here). -/
def sample_n_rows (d : Dataset) (n : ℤ) (choice : List ℕ) :
    Except String (Option (List (ℕ × List Value))) :=
  if n < 1 then .ok none
  else (pandas_sample d n.toNat choice).map some

instance {ε α : Type} [DecidableEq ε] [DecidableEq α] :
    DecidableEq (Except ε α) := fun a b =>
  match a, b with
  | .error e, .error f =>
      if h : e = f then .isTrue (by rw [h])
      else .isFalse fun hc => h (Except.error.inj hc)
  | .ok x, .ok y =>
      if h : x = y then .isTrue (by rw [h])
      else .isFalse fun hc => h (Except.ok.inj hc)
  | .error _, .ok _ => .isFalse fun hc => Except.noConfusion hc
  | .ok _, .error _ => .isFalse fun hc => Except.noConfusion hc

/-- The column names indexing an optional report table (empty when the
report is absent). -/
def table_names {α : Type} (r : Option (List (String × α))) : List String :=
  match r with
  | none => []
  | some tbl => tbl.map Prod.fst

/-- The names in a facade result: the returned list when the call produced
one, and empty on the diagnostic or exception path. -/
def except_table_names {α : Type}
    (r : Except String (Option (List (String × α)))) : List String :=
  match r with
  | .ok tbl => table_names tbl
  | .error _ => []

/-- The names in a column-list facade result. -/
def except_list_names (r : Except String (Option (List String))) : List String :=
  match r with
  | .ok (some l) => l
  | _ => []

/-! ### Concrete inputs used by the claim theorems -/

/-- The integer column `[10, 20, ..., 150]` with 15 distinct values. -/
def c3_column : List Value :=
  [10, 20, 30, 40, 50, 60, 70, 80, 90, 100, 110, 120, 130, 140, 150].map Value.intV

/-- A one-column DataFrame whose only column has three unique values, so it
has no binary column. -/
def no_binary_dataset : Dataset :=
  ⟨[⟨"A", Dtype.int, [Value.intV 1, Value.intV 2, Value.intV 3]⟩]⟩

/-- A one-column DataFrame of strings, so it has no continuous column. -/
def no_continuous_dataset : Dataset :=
  ⟨[⟨"B", Dtype.object, [Value.strV "x", Value.strV "y", Value.strV "x"]⟩]⟩

/-- A degenerate instantiation of the trusted scipy statistics primitives,
used to evaluate the facade at concrete inputs (the indexing claims hold for
every instantiation). -/
def const_nan : List Value → PyFloat := fun _ => PyFloat.nan

/-- A three-row DataFrame for the sampling claim. -/
def sample_dataset : Dataset :=
  ⟨[⟨"A", Dtype.int, [Value.intV 10, Value.intV 20, Value.intV 30]⟩]⟩

/-- A DataFrame with a continuous float column `A`, a string column `B`, and
a two-valued (binary, not continuous) integer column `C`. -/
def mixed_dataset : Dataset :=
  ⟨[⟨"A", Dtype.float, [Value.floatV 1, Value.floatV 2, Value.floatV 3, Value.floatV 4]⟩,
    ⟨"B", Dtype.object, [Value.strV "x", Value.strV "y", Value.strV "x", Value.strV "y"]⟩,
    ⟨"C", Dtype.int, [Value.intV 1, Value.intV 2, Value.intV 1, Value.intV 2]⟩]⟩

/-- A one-column DataFrame whose integer column has exactly two distinct
values: numeric dtype, but not recognised as continuous. -/
def two_valued_int_dataset : Dataset :=
  ⟨[⟨"A", Dtype.int, [Value.intV 1, Value.intV 2, Value.intV 1, Value.intV 2]⟩]⟩

/-! ### Helper lemmas -/

/-- `get_unique_values` is idempotent: its output contains no nulls and no
duplicates. -/
theorem get_unique_values_idem (l : List Value) :
    get_unique_values (get_unique_values l) = get_unique_values l := by
  unfold get_unique_values
  have h1 : ((l.filter fun v => !v.isNull).dedup.filter fun v => !v.isNull) =
      (l.filter fun v => !v.isNull).dedup := by
    apply List.filter_eq_self.mpr
    intro v hv
    rw [List.mem_dedup] at hv
    exact List.of_mem_filter (p := fun w => !Value.isNull w) hv
  rw [h1, List.Nodup.dedup (List.nodup_dedup _)]

/-! ### Claim theorems -/

/-- Claim C1: on every non-empty column the missing-value detector answers
true exactly when the first value is one of the canonical markers, false
exactly when it is not, and its result does not depend on the later values;
in particular it answers true on the column with a leading space marker and
false on the column whose space marker comes second. -/
theorem claim_C1_missing_value_detector_first_value_only
    (v : Value) (rest rest2 : List Value) :
    (column_with_missing_value (v :: rest) = some true ↔
      v ∈ common_missing_value_format) ∧
    (column_with_missing_value (v :: rest) = some false ↔
      v ∉ common_missing_value_format) ∧
    column_with_missing_value (v :: rest) = column_with_missing_value (v :: rest2) ∧
    column_with_missing_value
      [Value.strV " ", Value.intV 5, Value.intV 7] = some true ∧
    column_with_missing_value
      [Value.intV 5, Value.strV " ", Value.intV 7] = some false := by
  refine ⟨?_, ?_, ?_, by decide, by decide⟩ <;>
    by_cases h : v ∈ common_missing_value_format <;>
    simp [column_with_missing_value, h]

/-- Claim C2 (evaluation at the failing input): on the all-null column the
unique-value count is 0 and `binary_column_recognition` does return false,
but `categorical_column_recognition` and `continuous_variable_recognition`
evaluate the first element of the empty unique-value array on a line that
runs before their boolean conjunctions, so both raise `IndexError`
(modelled `none`) instead of returning false. -/
theorem claim_C2_all_null_column_evaluation :
    unique_values_count [Value.null, Value.null] = 0 ∧
    binary_column_recognition [Value.null, Value.null] = false ∧
    categorical_column_recognition [Value.null, Value.null] = none ∧
    continuous_variable_recognition [Value.null, Value.null] = none := by
  decide

/-- Claim C3: on any column whose distinct non-null values are all numpy
integers, if the unique count `u` satisfies `2 < u ≤ 30` then the
categorical predicate and the continuous predicate both return true. -/
theorem claim_C3_categorical_and_continuous_overlap (column : List Value)
    (hall : ∀ v ∈ get_unique_values column, is_np_integer v = true)
    (h2 : 2 < unique_values_count column)
    (h30 : unique_values_count column ≤ 30) :
    categorical_column_recognition column = some true ∧
    continuous_variable_recognition column = some true := by
  have hne : get_unique_values column ≠ [] := by
    intro hnil
    rw [unique_values_count, hnil] at h2
    simp at h2
  obtain ⟨f, fs, hcons⟩ := List.exists_cons_of_ne_nil hne
  have hf : is_np_integer f = true := hall f (by rw [hcons]; exact List.mem_cons_self f fs)
  have hcount : unique_values_count (get_unique_values column) =
      unique_values_count column := by
    unfold unique_values_count
    rw [get_unique_values_idem]
  constructor
  · unfold categorical_column_recognition
    rw [hcons]
    simp [h2, h30, hf]
  · unfold continuous_variable_recognition
    rw [hcons]
    show some (decide (2 < unique_values_count (f :: fs)) &&
      (is_np_integer f || is_np_float f)) = some true
    rw [← hcons, hcount]
    simp [h2, hf]

/-- Witness for claim C3: the integer column `[10, 20, ..., 150]` (15 unique
values) is classified both categorical and continuous. -/
theorem claim_C3_witness :
    categorical_column_recognition c3_column = some true ∧
    continuous_variable_recognition c3_column = some true :=
  claim_C3_categorical_and_continuous_overlap c3_column
    (by decide) (by decide) (by decide)

/-- Claim C10: on an empty column the missing-value detector falls through
its loop and returns `None` — neither boolean. -/
theorem claim_C10_empty_column_detector_returns_none :
    column_with_missing_value [] = none ∧
    ∀ b : Bool, column_with_missing_value [] ≠ some b := by
  decide

/-- Claim C4 (evaluation at the failing inputs): the facade does abort.  On
a DataFrame with no binary column, `get_binary_column_list` returns `None`
after its diagnostic, and `get_non_binary_column_list` then evaluates
`x not in None`, raising `TypeError`; on a DataFrame with no continuous
column, `get_numeric_column_list` returns `None` after its diagnostic, and
`get_normality_report` then evaluates `self.raw_data[None]`, raising a
lookup error — in both cases an exception instead of the claimed non-fatal
diagnostic-and-empty result. -/
theorem claim_C4_facade_raises_on_empty_result :
    get_non_binary_column_list no_binary_dataset =
      .error "TypeError: argument of type NoneType is not iterable" ∧
    get_normality_report const_nan const_nan const_nan const_nan
      DEFAULT_SIG_LEVEL no_continuous_dataset = .error "KeyError: None" := by
  decide

/-- Claim C5: `sample_n_rows(n)` with `n ≤ 0` prints a diagnostic and
returns `None` without raising; with `1 ≤ n ≤ row_number` and a valid random
draw it returns exactly `n` rows of the table carrying pairwise distinct row
indices. -/
theorem claim_C5_sample_bounds (d : Dataset) (n : ℤ) (choice : List ℕ) :
    (n ≤ 0 → sample_n_rows d n choice = .ok none) ∧
    (1 ≤ n → n.toNat ≤ row_number d → choice.length = n.toNat →
      choice.Nodup → (∀ i ∈ choice, i < row_number d) →
      ∃ rows, sample_n_rows d n choice = .ok (some rows) ∧
        rows.length = n.toNat ∧ (rows.map Prod.fst).Nodup ∧
        ∀ p ∈ rows, p.1 < row_number d ∧ p.2 = nth_row d p.1) := by
  constructor
  · intro hn
    have : n < 1 := by omega
    simp [sample_n_rows, this]
  · intro h1 hle hlen hnd hrange
    have hnot : ¬ n < 1 := by omega
    refine ⟨choice.map fun i => (i, nth_row d i), ?_, ?_, ?_, ?_⟩
    · simp only [sample_n_rows, hnot, if_false, pandas_sample]
      rw [if_pos ⟨hle, hlen, hnd, hrange⟩]
      rfl
    · simp [hlen]
    · have hmap : ((choice.map fun i => (i, nth_row d i)).map Prod.fst) = choice := by
        simp [List.map_map, Function.comp_def]
      rw [hmap]
      exact hnd
    · intro p hp
      simp only [List.mem_map] at hp
      obtain ⟨i, hi, rfl⟩ := hp
      exact ⟨hrange i hi, rfl⟩

/-- Witness for claim C5: sampling 2 of the 3 rows of a concrete table with
the draw `[0, 2]` yields those two rows. -/
theorem claim_C5_witness :
    ∃ rows, sample_n_rows sample_dataset 2 [0, 2] = .ok (some rows) ∧
      rows.length = (2 : ℤ).toNat ∧ (rows.map Prod.fst).Nodup ∧
      ∀ p ∈ rows, p.1 < row_number sample_dataset ∧
        p.2 = nth_row sample_dataset p.1 :=
  (claim_C5_sample_bounds sample_dataset 2 [0, 2]).2
    (by decide) (by decide) (by decide) (by decide) (by decide)

/-- Inserting into a list is a permutation of consing. -/
theorem np_insert_perm (x : PyFloat) (l : List PyFloat) :
    (np_insert x l).Perm (x :: l) := by
  induction l with
  | nil => exact List.Perm.refl _
  | cons y ys ih =>
      unfold np_insert
      by_cases h : pfLe x y
      · simp [h]
      · simp only [h, if_false]
        exact (ih.cons y).trans (List.Perm.swap x y ys)

/-- `np_sort` permutes its input. -/
theorem np_sort_perm (l : List PyFloat) : (np_sort l).Perm l := by
  induction l with
  | nil => exact List.Perm.refl _
  | cons x xs ih => exact (np_insert_perm x (np_sort xs)).trans (ih.cons x)

/-- `List.any` is invariant under permutation. -/
theorem any_perm_congr {α : Type} {l l2 : List α} (h : l.Perm l2)
    (f : α → Bool) : l.any f = l2.any f := by
  cases hl : l2.any f
  · rw [List.any_eq_false] at hl ⊢
    intro a ha
    exact hl a (h.mem_iff.mp ha)
  · rw [List.any_eq_true] at hl ⊢
    obtain ⟨a, ha, hf⟩ := hl
    exact ⟨a, h.mem_iff.mpr ha, hf⟩

/-- Claim C6: on every non-empty numeric column, the trimmed mean with trim
ratio 0 equals the arithmetic mean. -/
theorem claim_C6_trimmed_mean_ratio_zero_is_mean (column : List PyFloat)
    (h : column ≠ []) :
    get_X_perc_trimmed_mean column 0 = get_mean column := by
  obtain ⟨x, xs, rfl⟩ := List.exists_cons_of_ne_nil h
  have hsortlen : (np_sort (x :: xs)).length = (x :: xs).length :=
    (np_sort_perm (x :: xs)).length_eq
  have hlc : pyInt (0 * (((x :: xs).length : ℤ) : ℚ)) = 0 := by
    simp only [zero_mul, pyInt, le_refl, if_pos]
    decide
  have htake : (np_sort (x :: xs)).take (x :: xs).length = np_sort (x :: xs) := by
    rw [← hsortlen]
    exact List.take_length _
  have hsne : (np_sort (x :: xs)).isEmpty = false := by
    cases hs : np_sort (x :: xs) with
    | nil => rw [hs] at hsortlen; simp at hsortlen
    | cons a l => rfl
  have hany : (np_sort (x :: xs)).any PyFloat.isNan =
      (x :: xs).any PyFloat.isNan :=
    any_perm_congr (np_sort_perm (x :: xs)) PyFloat.isNan
  have hsum : ((np_sort (x :: xs)).map PyFloat.toQ).sum =
      ((x :: xs).map PyFloat.toQ).sum :=
    ((np_sort_perm (x :: xs)).map PyFloat.toQ).sum_eq
  unfold get_X_perc_trimmed_mean scipy_trim_mean get_mean statistics_mean
  simp only [List.isEmpty_cons, Bool.false_eq_true, if_false]
  rw [hlc]
  rw [if_neg (by omega : ¬ ((((x :: xs).length : ℕ) : ℤ) - 0 < 0))]
  simp only [sub_zero, Int.toNat_zero, List.drop_zero, Int.toNat_natCast, htake]
  unfold np_mean
  rw [hsne, hany, hsum, hsortlen]
  simp only [Bool.false_eq_true, if_false]
  by_cases hnan : (x :: xs).any PyFloat.isNan = true
  · rw [if_pos hnan, if_pos hnan]
  · rw [if_neg hnan, if_neg hnan]

/-- Witness for claim C6: on the column `[1, 2, 6]` the 0-trimmed mean and
the mean agree (both are 3). -/
theorem claim_C6_witness :
    get_X_perc_trimmed_mean [PyFloat.num 1, PyFloat.num 2, PyFloat.num 6] 0 =
      get_mean [PyFloat.num 1, PyFloat.num 2, PyFloat.num 6] :=
  claim_C6_trimmed_mean_ratio_zero_is_mean _ (by decide)

/-- The Python `min` fold over floats that are all numbers computes the
`min` fold over the underlying rationals. -/
theorem foldl_min_num (q : ℚ) (qs : List ℚ) :
    qs.foldl (fun best v =>
        if pyLt (PyFloat.num v) best then PyFloat.num v else best)
      (PyFloat.num q) =
      PyFloat.num (qs.foldl (fun b x => if x < b then x else b) q) := by
  induction qs generalizing q with
  | nil => rfl
  | cons x xs ih =>
      simp only [List.foldl_cons]
      rw [show pyLt (PyFloat.num x) (PyFloat.num q) = decide (x < q) from rfl]
      by_cases h : x < q
      · rw [if_pos (by simp [h] : decide (x < q) = true), if_pos h]
        exact ih x
      · rw [if_neg (by simp [h] : ¬ decide (x < q) = true), if_neg h]
        exact ih q

/-- The Python `max` fold over floats that are all numbers computes the
`max` fold over the underlying rationals. -/
theorem foldl_max_num (q : ℚ) (qs : List ℚ) :
    qs.foldl (fun best v =>
        if pyLt best (PyFloat.num v) then PyFloat.num v else best)
      (PyFloat.num q) =
      PyFloat.num (qs.foldl (fun b x => if b < x then x else b) q) := by
  induction qs generalizing q with
  | nil => rfl
  | cons x xs ih =>
      simp only [List.foldl_cons]
      rw [show pyLt (PyFloat.num q) (PyFloat.num x) = decide (q < x) from rfl]
      by_cases h : q < x
      · rw [if_pos (by simp [h] : decide (q < x) = true), if_pos h]
        exact ih x
      · rw [if_neg (by simp [h] : ¬ decide (q < x) = true), if_neg h]
        exact ih q

/-- `get_min` on a column of numbers is the rational `min` fold. -/
theorem get_min_map_num (q : ℚ) (qs : List ℚ) :
    get_min ((q :: qs).map PyFloat.num) =
      some (PyFloat.num (qs.foldl (fun b x => if x < b then x else b) q)) := by
  show some ((qs.map PyFloat.num).foldl
    (fun best v => if pyLt v best then v else best) (PyFloat.num q)) = _
  rw [List.foldl_map, foldl_min_num]

/-- `get_max` on a column of numbers is the rational `max` fold. -/
theorem get_max_map_num (q : ℚ) (qs : List ℚ) :
    get_max ((q :: qs).map PyFloat.num) =
      some (PyFloat.num (qs.foldl (fun b x => if b < x then x else b) q)) := by
  show some ((qs.map PyFloat.num).foldl
    (fun best v => if pyLt best v then v else best) (PyFloat.num q)) = _
  rw [List.foldl_map, foldl_max_num]

/-- The `min` fold yields an element of the inputs bounding them below. -/
theorem foldl_min_spec (q : ℚ) (qs : List ℚ) :
    (qs.foldl (fun b x => if x < b then x else b) q = q ∨
      qs.foldl (fun b x => if x < b then x else b) q ∈ qs) ∧
    qs.foldl (fun b x => if x < b then x else b) q ≤ q ∧
    ∀ x ∈ qs, qs.foldl (fun b x => if x < b then x else b) q ≤ x := by
  induction qs generalizing q with
  | nil => exact ⟨Or.inl rfl, le_refl q, by simp⟩
  | cons y ys ih =>
      simp only [List.foldl_cons]
      by_cases h : y < q
      · rw [if_pos h]
        obtain ⟨hmem, hle, hall⟩ := ih y
        refine ⟨?_, le_trans hle (le_of_lt h), ?_⟩
        · cases hmem with
          | inl he => exact Or.inr (by rw [he]; exact List.mem_cons_self y ys)
          | inr hm => exact Or.inr (List.mem_cons_of_mem y hm)
        · intro x hx
          cases List.mem_cons.mp hx with
          | inl hxy => rw [hxy]; exact hle
          | inr hxs => exact hall x hxs
      · rw [if_neg h]
        obtain ⟨hmem, hle, hall⟩ := ih q
        refine ⟨hmem.imp id (List.mem_cons_of_mem y), hle, ?_⟩
        intro x hx
        cases List.mem_cons.mp hx with
        | inl hxy => rw [hxy]; exact le_trans hle (not_lt.mp h)
        | inr hxs => exact hall x hxs

/-- The `max` fold yields an element of the inputs bounding them above. -/
theorem foldl_max_spec (q : ℚ) (qs : List ℚ) :
    (qs.foldl (fun b x => if b < x then x else b) q = q ∨
      qs.foldl (fun b x => if b < x then x else b) q ∈ qs) ∧
    q ≤ qs.foldl (fun b x => if b < x then x else b) q ∧
    ∀ x ∈ qs, x ≤ qs.foldl (fun b x => if b < x then x else b) q := by
  induction qs generalizing q with
  | nil => exact ⟨Or.inl rfl, le_refl q, by simp⟩
  | cons y ys ih =>
      simp only [List.foldl_cons]
      by_cases h : q < y
      · rw [if_pos h]
        obtain ⟨hmem, hle, hall⟩ := ih y
        refine ⟨?_, le_trans (le_of_lt h) hle, ?_⟩
        · cases hmem with
          | inl he => exact Or.inr (by rw [he]; exact List.mem_cons_self y ys)
          | inr hm => exact Or.inr (List.mem_cons_of_mem y hm)
        · intro x hx
          cases List.mem_cons.mp hx with
          | inl hxy => rw [hxy]; exact hle
          | inr hxs => exact hall x hxs
      · rw [if_neg h]
        obtain ⟨hmem, hle, hall⟩ := ih q
        refine ⟨hmem.imp id (List.mem_cons_of_mem y), hle, ?_⟩
        intro x hx
        cases List.mem_cons.mp hx with
        | inl hxy => rw [hxy]; exact le_trans (not_lt.mp h) hle
        | inr hxs => exact hall x hxs

/-- Claim C7: on a non-empty numeric column, `get_min`/`get_max` return the
column's minimum and maximum, and `get_range` returns the string built by
formatting them with exactly two decimal places between a parenthesis pair
separated by a tilde.  (The inputs `mn`, `mx` are pinned by the two
equation hypotheses, which also force the column to be non-empty.) -/
theorem claim_C7_range_formats_min_and_max (qs : List ℚ) (mn mx : ℚ)
    (hmn : get_min (qs.map PyFloat.num) = some (PyFloat.num mn))
    (hmx : get_max (qs.map PyFloat.num) = some (PyFloat.num mx)) :
    mn ∈ qs ∧ mx ∈ qs ∧ (∀ x ∈ qs, mn ≤ x ∧ x ≤ mx) ∧
    get_range (qs.map PyFloat.num) =
      some ("(" ++ formatFixed2 (PyFloat.num mn) ++ " ~ " ++
        formatFixed2 (PyFloat.num mx) ++ ")") := by
  cases qs with
  | nil => simp [get_min] at hmn
  | cons q rest =>
      have hmn2 := get_min_map_num q rest
      have hmx2 := get_max_map_num q rest
      rw [hmn] at hmn2
      rw [hmx] at hmx2
      have hmneq : mn = rest.foldl (fun b x => if x < b then x else b) q :=
        PyFloat.num.inj (Option.some.inj hmn2)
      have hmxeq : mx = rest.foldl (fun b x => if b < x then x else b) q :=
        PyFloat.num.inj (Option.some.inj hmx2)
      obtain ⟨hminmem, hminq, hminall⟩ := foldl_min_spec q rest
      obtain ⟨hmaxmem, hmaxq, hmaxall⟩ := foldl_max_spec q rest
      rw [← hmneq] at hminmem hminq hminall
      rw [← hmxeq] at hmaxmem hmaxq hmaxall
      refine ⟨?_, ?_, ?_, ?_⟩
      · cases hminmem with
        | inl he => rw [he]; exact List.mem_cons_self q rest
        | inr hm => exact List.mem_cons_of_mem q hm
      · cases hmaxmem with
        | inl he => rw [he]; exact List.mem_cons_self q rest
        | inr hm => exact List.mem_cons_of_mem q hm
      · intro x hx
        cases List.mem_cons.mp hx with
        | inl hxq => rw [hxq]; exact ⟨hminq, hmaxq⟩
        | inr hxs => exact ⟨hminall x hxs, hmaxall x hxs⟩
      · unfold get_range
        rw [hmn, hmx]

/-- Witness for claim C7: on the column `[3, 1, 7, 2]` the range string is
exactly the nine-character literal with minimum 1 and maximum 7. -/
theorem claim_C7_witness :
    get_range ([3, 1, 7, 2].map PyFloat.num) = some "(1.00 ~ 7.00)" := by
  have h := claim_C7_range_formats_min_and_max [3, 1, 7, 2] 1 7
    (by decide) (by decide)
  rw [h.2.2.2]
  decide

/-- Unfolding equation for `continuous_variable_recognition`. -/
theorem continuous_variable_recognition_eq (column0 : List Value) :
    continuous_variable_recognition column0 =
      match (get_unique_values column0).head? with
      | none => none
      | some first_value =>
          some (decide (2 < unique_values_count (get_unique_values column0)) &&
            (is_np_integer first_value || is_np_float first_value)) := rfl

/-- In a well-formed DataFrame, a column recognised as continuous has a
numeric dtype: its first distinct value is a numpy integer or a float, and
object/bool columns cannot contain such a cell. -/
theorem continuous_true_numeric_dtype (c : Column)
    (hok : ∀ v ∈ c.values, dtype_ok c.dtype v = true)
    (hcont : continuous_variable_recognition c.values = some true) :
    numeric_dtype c.dtype = true := by
  rw [continuous_variable_recognition_eq] at hcont
  cases hh : (get_unique_values c.values).head? with
  | none => rw [hh] at hcont; exact absurd hcont (by simp)
  | some f =>
      rw [hh] at hcont
      have hb : (is_np_integer f || is_np_float f) = true :=
        (Bool.and_eq_true_iff.mp (Option.some.inj hcont)).2
      have hfu : f ∈ get_unique_values c.values := by
        cases hl : get_unique_values c.values with
        | nil => rw [hl] at hh; exact absurd hh (by simp)
        | cons a t =>
            rw [hl] at hh
            have : f = a := by simpa using hh.symm
            rw [this]
            exact List.mem_cons_self a t
      have hfmem : f ∈ c.values := by
        unfold get_unique_values at hfu
        rw [List.mem_dedup] at hfu
        exact List.mem_of_mem_filter hfu
      have hd := hok f hfmem
      cases f with
      | null => exact absurd hb (by simp [is_np_integer, is_np_float])
      | boolV b => exact absurd hb (by simp [is_np_integer, is_np_float])
      | strV s => exact absurd hb (by simp [is_np_integer, is_np_float])
      | intV n =>
          cases hdt : c.dtype with
          | int => rfl
          | float => rfl
          | object => rw [hdt] at hd; exact absurd hd (by simp [dtype_ok])
          | bool => rw [hdt] at hd; exact absurd hd (by simp [dtype_ok])
      | floatV q =>
          cases hdt : c.dtype with
          | int => rfl
          | float => rfl
          | object => rw [hdt] at hd; exact absurd hd (by simp [dtype_ok])
          | bool => rw [hdt] at hd; exact absurd hd (by simp [dtype_ok])

/-- In a well-formed DataFrame, the rows of the normality report built from
the continuous column names are indexed exactly by those names: the
`select_dtypes` restriction removes nothing, because continuous columns have
numeric dtype, and by name-uniqueness the name-membership filter selects
exactly the continuous columns. -/
theorem normality_rows_map_fst (skew skewp kurt kurtp : List Value → PyFloat)
    (sig_level : ℚ) (d : Dataset) (hwf : WF d) :
    (normality_report_rows skew skewp kurt kurtp sig_level d
        (numeric_column_names d)).map Prod.fst = numeric_column_names d := by
  unfold normality_report_rows
  rw [List.map_map]
  have hfst : (Prod.fst ∘ fun c : Column =>
      (c.name, NormalityRow.mk (skew c.values)
        (pvalue_significant (skewp c.values) sig_level)
        (kurt c.values)
        (pvalue_significant (kurtp c.values) sig_level))) = Column.name := rfl
  rw [hfst, List.filter_filter]
  conv_rhs => unfold numeric_column_names
  congr 1
  apply List.filter_congr
  intro c hc
  by_cases hP : continuous_variable_recognition c.values = some true
  · have h1 : c.name ∈ numeric_column_names d := by
      unfold numeric_column_names
      exact List.mem_map_of_mem Column.name
        (List.mem_filter.mpr ⟨hc, by simp [hP]⟩)
    have h2 := continuous_true_numeric_dtype c (hwf.2 c hc) hP
    simp [h1, h2, hP]
  · have h1 : c.name ∉ numeric_column_names d := by
      intro hmem
      unfold numeric_column_names at hmem
      obtain ⟨c2, hc2f, hname⟩ := List.mem_map.mp hmem
      have hc2 := List.mem_filter.mp hc2f
      have hceq : c2 = c := List.inj_on_of_nodup_map hwf.1 hc2.1 hc hname
      rw [hceq] at hc2
      exact hP (by simpa using hc2.2)
    simp [h1, hP]

/-- Claim C8: whenever the normality report is produced for a well-formed
DataFrame, it is indexed by exactly the columns satisfying the continuous
predicate — a column classified only categorical or binary is excluded even
when its dtype is numeric. -/
theorem claim_C8_normality_report_exactly_continuous
    (skew skewp kurt kurtp : List Value → PyFloat) (sig_level : ℚ)
    (d : Dataset) (hwf : WF d) (report : List (String × NormalityRow))
    (hok : get_normality_report skew skewp kurt kurtp sig_level d =
      .ok (some report)) :
    report.map Prod.fst =
      (d.columns.filter fun c =>
        decide (continuous_variable_recognition c.values = some true)).map
        Column.name := by
  unfold get_normality_report at hok
  cases hncl : get_numeric_column_list d with
  | error e => rw [hncl] at hok; exact absurd hok (by simp)
  | ok o =>
      cases o with
      | none => rw [hncl] at hok; exact absurd hok (by simp)
      | some ocv =>
          rw [hncl] at hok
          have hocv : ocv = numeric_column_names d := by
            unfold get_numeric_column_list at hncl
            by_cases hall : (d.columns.all fun c =>
                (continuous_variable_recognition c.values).isSome) = true
            · rw [if_pos hall] at hncl
              by_cases hlen : 0 < (numeric_column_names d).length
              · rw [if_pos hlen] at hncl
                exact (Option.some.inj (Except.ok.inj hncl)).symm
              · rw [if_neg hlen] at hncl
                exact absurd hncl (by simp)
            · rw [if_neg hall] at hncl
              exact absurd hncl (by simp)
          subst hocv
          have hok2 : (if 0 < (normality_report_rows skew skewp kurt kurtp
              sig_level d (numeric_column_names d)).length then
              Except.ok (some (normality_report_rows skew skewp kurt kurtp
                sig_level d (numeric_column_names d)))
            else (Except.ok none :
              Except String (Option (List (String × NormalityRow))))) =
              Except.ok (some report) := hok
          by_cases hlen2 : 0 < (normality_report_rows skew skewp kurt kurtp
              sig_level d (numeric_column_names d)).length
          · rw [if_pos hlen2] at hok2
            have hrep : normality_report_rows skew skewp kurt kurtp sig_level d
                (numeric_column_names d) = report :=
              Option.some.inj (Except.ok.inj hok2)
            rw [← hrep]
            exact normality_rows_map_fst skew skewp kurt kurtp sig_level d hwf
          · rw [if_neg hlen2] at hok2
            exact absurd hok2 (by simp)

/-- Witness for claim C8: on `mixed_dataset` the normality report is indexed
by the continuous column `A` alone, excluding the string column `B` and the
numeric-typed binary column `C`. -/
theorem claim_C8_witness :
    ([("A", NormalityRow.mk PyFloat.nan false PyFloat.nan false)] :
        List (String × NormalityRow)).map Prod.fst =
      (mixed_dataset.columns.filter fun c =>
        decide (continuous_variable_recognition c.values = some true)).map
        Column.name :=
  claim_C8_normality_report_exactly_continuous const_nan const_nan const_nan
    const_nan DEFAULT_SIG_LEVEL mixed_dataset (by decide)
    [("A", NormalityRow.mk PyFloat.nan false PyFloat.nan false)] (by decide)

/-- `mapM` over value conversions succeeds when every conversion does,
preserving the length. -/
theorem mapM_toPyFloat_some (vs : List Value)
    (h : ∀ v ∈ vs, (Value.toPyFloat? v).isSome = true) :
    ∃ fs, vs.mapM Value.toPyFloat? = some fs ∧ fs.length = vs.length := by
  induction vs with
  | nil => exact ⟨[], rfl, rfl⟩
  | cons v t ih =>
      obtain ⟨f, hf⟩ := Option.isSome_iff_exists.mp (h v (List.mem_cons_self v t))
      obtain ⟨fs, hfs, hlen⟩ := ih fun w hw => h w (List.mem_cons_of_mem v hw)
      refine ⟨f :: fs, ?_, by simp [hlen]⟩
      rw [List.mapM_cons, hf, hfs]
      rfl

/-- Generic conversion success: on a numeric-dtype column whose cells match
the dtype, the Series-to-floats conversion succeeds with the same length. -/
theorem toPyFloat_mapM_of_numeric (c : Column)
    (hdt : numeric_dtype c.dtype = true)
    (hok : ∀ v ∈ c.values, dtype_ok c.dtype v = true) :
    ∃ fs, c.values.mapM Value.toPyFloat? = some fs ∧
      fs.length = c.values.length := by
  apply mapM_toPyFloat_some
  intro v hv
  have hd := hok v hv
  cases hdtv : c.dtype <;> rw [hdtv] at hd hdt <;> cases v <;>
    simp_all [dtype_ok, Value.toPyFloat?, numeric_dtype]

/-- A per-Series statistic succeeds on a non-empty numeric-dtype column
whenever the underlying primitive succeeds on non-empty float data. -/
theorem series_stat_isSome {α : Type} (stat : List PyFloat → Option α)
    (hstat : ∀ fs : List PyFloat, fs ≠ [] → (stat fs).isSome = true)
    (c : Column) (hdt : numeric_dtype c.dtype = true)
    (hok : ∀ v ∈ c.values, dtype_ok c.dtype v = true) (hne : c.values ≠ []) :
    (series_stat stat c.values).isSome = true := by
  obtain ⟨fs, hfs, hlen⟩ := toPyFloat_mapM_of_numeric c hdt hok
  unfold series_stat
  rw [hfs]
  show (stat fs).isSome = true
  apply hstat
  intro hnil
  rw [hnil] at hlen
  cases hcv : c.values with
  | nil => exact hne hcv
  | cons a t => rw [hcv] at hlen; simp at hlen

/-- `statistics.mean` succeeds on non-empty data. -/
theorem statistics_mean_isSome (fs : List PyFloat) (h : fs ≠ []) :
    (statistics_mean fs).isSome = true := by
  obtain ⟨x, xs, rfl⟩ := List.exists_cons_of_ne_nil h
  cases hany : (x :: xs).any PyFloat.isNan <;> simp [statistics_mean, hany]

/-- `statistics.median` succeeds on non-empty data. -/
theorem statistics_median_isSome (fs : List PyFloat) (h : fs ≠ []) :
    (statistics_median fs).isSome = true := by
  obtain ⟨x, xs, rfl⟩ := List.exists_cons_of_ne_nil h
  unfold statistics_median
  simp only [List.isEmpty_cons, Bool.false_eq_true, if_false]
  split <;> rfl

/-- `scipy.stats.mode` succeeds on non-empty data. -/
theorem scipy_mode_isSome (fs : List PyFloat) (h : fs ≠ []) :
    (scipy_mode fs).isSome = true := by
  cases hs : np_sort fs with
  | nil =>
      have hl := (np_sort_perm fs).length_eq
      rw [hs] at hl
      cases hcv : fs with
      | nil => exact absurd hcv h
      | cons a t => rw [hcv] at hl; simp at hl
  | cons a t => simp [scipy_mode, hs]

/-- Python `min` succeeds on non-empty data. -/
theorem get_min_isSome (fs : List PyFloat) (h : fs ≠ []) :
    (get_min fs).isSome = true := by
  obtain ⟨x, xs, rfl⟩ := List.exists_cons_of_ne_nil h
  rfl

/-- Python `max` succeeds on non-empty data. -/
theorem get_max_isSome (fs : List PyFloat) (h : fs ≠ []) :
    (get_max fs).isSome = true := by
  obtain ⟨x, xs, rfl⟩ := List.exists_cons_of_ne_nil h
  rfl

/-- `get_range` succeeds on non-empty data. -/
theorem get_range_isSome (fs : List PyFloat) (h : fs ≠ []) :
    (get_range fs).isSome = true := by
  obtain ⟨x, xs, rfl⟩ := List.exists_cons_of_ne_nil h
  rfl

/-- `mapM` over the name-statistic pairing succeeds when every column's
statistic does, and the resulting table is indexed by the column names in
order. -/
theorem mapM_pair_names {α : Type} (f : List Value → Option α)
    (l : List Column) (h : ∀ c ∈ l, (f c.values).isSome = true) :
    ∃ tbl, l.mapM (fun c => (f c.values).map fun m => (c.name, m)) =
        some tbl ∧ tbl.map Prod.fst = l.map Column.name := by
  induction l with
  | nil => exact ⟨[], rfl, rfl⟩
  | cons c cs ih =>
      obtain ⟨m, hm⟩ := Option.isSome_iff_exists.mp (h c (List.mem_cons_self c cs))
      obtain ⟨tbl, htbl, hnames⟩ := ih fun c2 hc2 => h c2 (List.mem_cons_of_mem c hc2)
      refine ⟨(c.name, m) :: tbl, ?_, by simp [hnames]⟩
      rw [List.mapM_cons, hm, htbl]
      rfl

/-- Conversely, whenever `mapM` over the name-statistic pairing returns a
table, that table is indexed by the column names in order. -/
theorem mapM_pair_names_of_eq {α : Type} (f : List Value → Option α) :
    ∀ (l : List Column) (tbl : List (String × α)),
      l.mapM (fun c => (f c.values).map fun m => (c.name, m)) = some tbl →
      tbl.map Prod.fst = l.map Column.name := by
  intro l
  induction l with
  | nil =>
      intro tbl h
      rw [← Option.some.inj h]
      rfl
  | cons c cs ih =>
      intro tbl h
      rw [List.mapM_cons] at h
      cases hf : f c.values with
      | none => rw [hf] at h; exact absurd h (by simp)
      | some m =>
          rw [hf] at h
          cases hm : cs.mapM (fun c => (f c.values).map fun m => (c.name, m)) with
          | none => rw [hm] at h; exact absurd h (by simp)
          | some t2 =>
              rw [hm] at h
              have htbl : (c.name, m) :: t2 = tbl := by simpa using h
              rw [← htbl]
              simp [ih t2 hm]

/-- Whenever an accessor built on the shared `select_dtypes`-then-`apply`
skeleton returns without exception, its table is indexed exactly by the
dtype-numeric column names. -/
theorem apply_to_numeric_dtype_ok_names {α : Type} (f : List Value → Option α)
    (err : String) (d : Dataset) (res : Option (List (String × α)))
    (hok : apply_to_numeric_dtype f err d = .ok res) :
    table_names res = numeric_dtype_names d := by
  unfold apply_to_numeric_dtype at hok
  cases hm : (d.columns.filter fun c => numeric_dtype c.dtype).mapM
      (fun c => (f c.values).map fun m => (c.name, m)) with
  | none => rw [hm] at hok; exact absurd hok (by simp)
  | some tbl =>
      rw [hm] at hok
      have hnames := mapM_pair_names_of_eq f _ tbl hm
      have hok2 : (if 0 < tbl.length then Except.ok (some tbl)
          else (Except.ok none :
            Except String (Option (List (String × α))))) = .ok res := hok
      by_cases hlen : 0 < tbl.length
      · rw [if_pos hlen] at hok2
        rw [← Except.ok.inj hok2]
        simpa [table_names, numeric_dtype_names] using hnames
      · rw [if_neg hlen] at hok2
        rw [← Except.ok.inj hok2]
        have htblnil : tbl = [] := by
          cases tbl with
          | nil => rfl
          | cons a t => simp at hlen
        rw [htblnil] at hnames
        simpa [table_names, numeric_dtype_names] using hnames

/-- An accessor built on the shared skeleton succeeds, with its table
indexed by the dtype-numeric column names, whenever every selected column\'s
statistic succeeds. -/
theorem apply_to_numeric_dtype_ok_of_isSome {α : Type}
    (f : List Value → Option α) (err : String) (d : Dataset)
    (h : ∀ c ∈ d.columns.filter fun c => numeric_dtype c.dtype,
      (f c.values).isSome = true) :
    ∃ res, apply_to_numeric_dtype f err d = .ok res ∧
      table_names res = numeric_dtype_names d := by
  obtain ⟨tbl, htbl, hnames⟩ := mapM_pair_names f _ h
  unfold apply_to_numeric_dtype
  rw [htbl]
  show ∃ res, (if 0 < tbl.length then Except.ok (some tbl)
    else (Except.ok none : Except String (Option (List (String × α))))) =
      .ok res ∧ _
  by_cases hlen : 0 < tbl.length
  · rw [if_pos hlen]
    exact ⟨some tbl, rfl,
      by simpa [table_names, numeric_dtype_names] using hnames⟩
  · rw [if_neg hlen]
    refine ⟨none, rfl, ?_⟩
    have htblnil : tbl = [] := by
      cases tbl with
      | nil => rfl
      | cons a t => simp at hlen
    rw [htblnil] at hnames
    simpa [table_names, numeric_dtype_names] using hnames

/-- On a well-formed DataFrame with no empty column, a per-Series statistic
that succeeds on non-empty float data succeeds on every dtype-numeric
column. -/
theorem selected_series_stat_isSome {α : Type} (stat : List PyFloat → Option α)
    (hstat : ∀ fs : List PyFloat, fs ≠ [] → (stat fs).isSome = true)
    (d : Dataset) (hwf : WF d) (hne : ∀ c ∈ d.columns, c.values ≠ []) :
    ∀ c ∈ d.columns.filter fun c => numeric_dtype c.dtype,
      (series_stat stat c.values).isSome = true := by
  intro c hc
  have h2 := List.mem_filter.mp hc
  exact series_stat_isSome stat hstat c h2.2 (hwf.2 c h2.1) (hne c h2.1)

/-- Counterexample to claim C9: on the DataFrame whose single integer
column `A` has exactly two distinct values, the mean accessor's table is
indexed by `A` (the column passes the dtype restriction), while the
numeric-columns classification query returns no names at all (the column
fails the continuous predicate), so the two name sets differ. -/
theorem claim_C9_counterexample :
    except_table_names (get_mean_traditional two_valued_int_dataset) ≠
      except_list_names (get_numeric_column_list two_valued_int_dataset) := by
  decide

/-- Claim C9 as amended: each of the nine descriptive-stat accessors
restricts to the dtype-numeric columns (`select_dtypes(exclude=[object,
bool])`), not to the numeric-columns classification query.  On a well-formed
DataFrame with no empty column, the mean, median, mode, min, max, range,
kurtosis-report and skewness-report accessors return without exception with
tables indexed exactly by the dtype-numeric column names; the trimmed-mean
accessor\'s table is indexed by those same names for every trim ratio on
which scipy\'s `trim_mean` returns (it raises for ratios of one half and
above). -/
theorem claim_C9_amended_accessors_restrict_by_dtype (d : Dataset)
    (hwf : WF d) (hne : ∀ c ∈ d.columns, c.values ≠ [])
    (skew skewp kurt kurtp : List Value → PyFloat)
    (trimmed_ratio sig_level : ℚ) :
    (∃ res, get_mean_traditional d = .ok res ∧
      table_names res = numeric_dtype_names d) ∧
    (∀ res, get_mean_trimmed d trimmed_ratio = .ok res →
      table_names res = numeric_dtype_names d) ∧
    (∃ res, get_median d = .ok res ∧
      table_names res = numeric_dtype_names d) ∧
    (∃ res, get_mode d = .ok res ∧
      table_names res = numeric_dtype_names d) ∧
    (∃ res, get_minimums d = .ok res ∧
      table_names res = numeric_dtype_names d) ∧
    (∃ res, get_maximums d = .ok res ∧
      table_names res = numeric_dtype_names d) ∧
    (∃ res, get_range_table d = .ok res ∧
      table_names res = numeric_dtype_names d) ∧
    (∃ res, get_kurtosis_report kurt kurtp sig_level d = .ok res ∧
      table_names res = numeric_dtype_names d) ∧
    (∃ res, get_skewness_report skew skewp sig_level d = .ok res ∧
      table_names res = numeric_dtype_names d) := by
  refine ⟨?_, ?_, ?_, ?_, ?_, ?_, ?_, ?_, ?_⟩
  · exact apply_to_numeric_dtype_ok_of_isSome series_mean "StatisticsError" d
      (selected_series_stat_isSome statistics_mean statistics_mean_isSome
        d hwf hne)
  · intro res hres
    exact apply_to_numeric_dtype_ok_names (series_trim_mean trimmed_ratio)
      "ValueError" d res hres
  · exact apply_to_numeric_dtype_ok_of_isSome series_median "StatisticsError" d
      (selected_series_stat_isSome get_median_stat statistics_median_isSome
        d hwf hne)
  · exact apply_to_numeric_dtype_ok_of_isSome series_mode "TypeError" d
      (selected_series_stat_isSome scipy_mode scipy_mode_isSome d hwf hne)
  · exact apply_to_numeric_dtype_ok_of_isSome series_min "ValueError" d
      (selected_series_stat_isSome get_min get_min_isSome d hwf hne)
  · exact apply_to_numeric_dtype_ok_of_isSome series_max "ValueError" d
      (selected_series_stat_isSome get_max get_max_isSome d hwf hne)
  · exact apply_to_numeric_dtype_ok_of_isSome series_range "ValueError" d
      (selected_series_stat_isSome get_range get_range_isSome d hwf hne)
  · exact apply_to_numeric_dtype_ok_of_isSome
      (shape_report_row kurt kurtp sig_level) "ValueError" d fun c hc => rfl
  · exact apply_to_numeric_dtype_ok_of_isSome
      (shape_report_row skew skewp sig_level) "ValueError" d fun c hc => rfl

/-- Witness for the amended claim C9: on the two-valued integer DataFrame
every descriptive-stat accessor\'s table is indexed by the dtype-numeric
columns. -/
theorem claim_C9_witness :
    (∃ res, get_mean_traditional two_valued_int_dataset = .ok res ∧
      table_names res = numeric_dtype_names two_valued_int_dataset) ∧
    (∀ res, get_mean_trimmed two_valued_int_dataset 0 = .ok res →
      table_names res = numeric_dtype_names two_valued_int_dataset) ∧
    (∃ res, get_median two_valued_int_dataset = .ok res ∧
      table_names res = numeric_dtype_names two_valued_int_dataset) ∧
    (∃ res, get_mode two_valued_int_dataset = .ok res ∧
      table_names res = numeric_dtype_names two_valued_int_dataset) ∧
    (∃ res, get_minimums two_valued_int_dataset = .ok res ∧
      table_names res = numeric_dtype_names two_valued_int_dataset) ∧
    (∃ res, get_maximums two_valued_int_dataset = .ok res ∧
      table_names res = numeric_dtype_names two_valued_int_dataset) ∧
    (∃ res, get_range_table two_valued_int_dataset = .ok res ∧
      table_names res = numeric_dtype_names two_valued_int_dataset) ∧
    (∃ res, get_kurtosis_report const_nan const_nan DEFAULT_SIG_LEVEL
        two_valued_int_dataset = .ok res ∧
      table_names res = numeric_dtype_names two_valued_int_dataset) ∧
    (∃ res, get_skewness_report const_nan const_nan DEFAULT_SIG_LEVEL
        two_valued_int_dataset = .ok res ∧
      table_names res = numeric_dtype_names two_valued_int_dataset) :=
  claim_C9_amended_accessors_restrict_by_dtype two_valued_int_dataset
    (by decide) (by decide) const_nan const_nan const_nan const_nan
    0 DEFAULT_SIG_LEVEL

end BasicStats